import Mathlib

/-
  A verification model of the asteroids-style game core in
  src/atividade-009 (sprites.py, systems.py).

  The embedding is shallow and functional: every `def` below translates one
  Python function of the source, with mutation replaced by explicit state
  passing.  Python floats are idealised as rationals; every comparison of a
  euclidean distance against a radius is translated into the equivalent
  comparison of the squared distance against the squared radius (the two
  agree whenever the radius is non-negative, since sqrt is monotone).

  The repository also imports config.py, utils.py and sounds.py, which are
  not part of the two source files.  Their contents are modelled from the
  specification: numeric constants become fields of `Config`, and the
  external trigonometric / vector helpers (cos-sin direction constructors,
  atan2, normalisation) become abstract function fields of `Config`.
  Randomness (random.uniform, pygame channel allocation) is modelled by an
  explicit oracle `Rng` holding a list of unit-interval draws and a list of
  channel-allocation results; an exhausted oracle yields 0 / no channel.
  The looping UFO engine sound is modelled by the channel id the UFO holds;
  every place where the source calls channel.stop() the model emits that id
  into a stop log, so resource-release behaviour is observable.
-/

/-- 2D vector of rational coordinates, modelling utils.Vec
(a pygame Vector2 in the source). -/
structure Vec where
  x : ℚ
  y : ℚ
deriving DecidableEq, Repr

instance : Add Vec := ⟨fun a b => ⟨a.x + b.x, a.y + b.y⟩⟩
instance : Sub Vec := ⟨fun a b => ⟨a.x - b.x, a.y - b.y⟩⟩
instance : HMul Vec ℚ Vec := ⟨fun v q => ⟨v.x * q, v.y * q⟩⟩

/-- Squared euclidean distance.  The source compares `(a - b).length() < r`;
the model compares `distSq a b < r ^ 2`, equivalent for `0 ≤ r`. -/
def distSq (a b : Vec) : ℚ := (a.x - b.x) ^ 2 + (a.y - b.y) ^ 2

/-- Squared norm, used for the zero-vector test in the UFO constructor. -/
def Vec.normSq (v : Vec) : ℚ := v.x ^ 2 + v.y ^ 2

/-- Asteroid size class, modelling the strings "L" | "M" | "S". -/
inductive AstSize where
  | L
  | M
  | S
deriving DecidableEq, Repr

/-- Modelled from the spec: the split table AST_SIZES[size]["split"] lives in
the missing config.py.  Per the spec, Large splits into Medium children,
Medium into Small children, Small into none; the end-to-end scenario in the
spec fixes the child count at two (one Large hit leaves two Medium). -/
def AstSize.splitSizes : AstSize → List AstSize
  | .L => [.M, .M]
  | .M => [.S, .S]
  | .S => []

/-- Modelled from the spec: the constants of the missing config.py are
parameters, and the external math helpers of the missing utils.py
(angle_to_vec, the cos-sin pair used by start_wave, math.degrees-atan2 used
by UFO.fire, Vector2.normalize) are abstract function fields. -/
structure Config where
  WIDTH : ℚ
  HEIGHT : ℚ
  START_LIVES : ℤ
  WAVE_DELAY : ℚ
  SAFE_SPAWN_TIME : ℚ
  UFO_SPAWN_EVERY : ℚ
  SHIP_RADIUS : ℚ
  SHIP_TURN_SPEED : ℚ
  SHIP_THRUST : ℚ
  SHIP_FRICTION : ℚ
  SHIP_FIRE_RATE : ℚ
  SHIP_BULLET_SPEED : ℚ
  BULLET_TTL : ℚ
  BULLET_RADIUS : ℚ
  MAX_BULLETS : ℕ
  UFO_SPEED : ℚ
  UFO_BULLET_SPEED : ℚ
  UFO_SMALL_R : ℚ
  UFO_BIG_R : ℚ
  UFO_SMALL_SCORE : ℕ
  UFO_BIG_SCORE : ℕ
  UFO_FIRE_RATE_SMALL : ℚ
  UFO_FIRE_RATE_BIG : ℚ
  AST_VEL_MIN : ℚ
  AST_VEL_MAX : ℚ
  TAU : ℚ
  astR : AstSize → ℚ
  astScore : AstSize → ℕ
  angle_to_vec : ℚ → Vec
  rad_to_vec : ℚ → Vec
  vec_angle : Vec → ℚ
  normalizeV : Vec → Vec

/-- Randomness oracle: `us` holds the unit-interval draws behind
random.uniform, `chans` the results of pygame mixer find_channel. -/
structure Rng where
  us : List ℚ
  chans : List (Option ℕ)
deriving DecidableEq, Repr

/-- random.uniform(a, b): next unit draw scaled into the interval. -/
def Rng.uni (g : Rng) (a b : ℚ) : ℚ × Rng :=
  (a + g.us.headD 0 * (b - a), { g with us := g.us.tail })

/-- pygame mixer find_channel: may yield no channel (exhaustion). -/
def Rng.findChannel (g : Rng) : Option ℕ × Rng :=
  (g.chans.headD none, { g with chans := g.chans.tail })

/-- Modelled from the spec: utils.wrap_pos is in the missing utils.py.
True modulo into the arena, coordinate-wise; exiting one edge re-enters
the opposite edge, and negative values are handled. -/
def qmod (x m : ℚ) : ℚ := x - m * ((x / m).floor : ℤ)

def wrap_pos (cfg : Config) (p : Vec) : Vec :=
  ⟨qmod p.x cfg.WIDTH, qmod p.y cfg.HEIGHT⟩

/-- Center of pg.Rect(0, 0, 2r, 2r), integer rect just constructed
(values are non-negative wherever the source runs, so floor agrees with
the C truncation pygame performs). -/
def rect0Center (r : ℚ) : ℤ × ℤ := ((2 * r).floor / 2, (2 * r).floor / 2)

/-- sprites.Bullet.  The jittered asteroid polygon and the pygame rect of
asteroids and UFOs are rendering-only and never read by the simulation, so
they are not modelled; the rect centers of Ship and Bullet feed
pg.sprite.collide_circle and are kept. -/
structure Bullet where
  pos : Vec
  vel : Vec
  ttl : ℚ
  r : ℚ
  rectCenter : ℤ × ℤ
deriving DecidableEq, Repr

/-- sprites.Bullet.__init__. -/
def Bullet.init (cfg : Config) (pos vel : Vec) : Bullet :=
  { pos := pos, vel := vel, ttl := cfg.BULLET_TTL, r := cfg.BULLET_RADIUS,
    rectCenter := rect0Center cfg.BULLET_RADIUS }

/-- sprites.Bullet.update: integrate, wrap, decrement ttl, refresh rect.
The self-kill on ttl ≤ 0 removes the sprite from its groups; in the model
the owning World filters expired bullets out right after mapping update. -/
def Bullet.update (cfg : Config) (b : Bullet) (dt : ℚ) : Bullet :=
  let p := wrap_pos cfg (b.pos + b.vel * dt)
  { b with pos := p, ttl := b.ttl - dt, rectCenter := (p.x.floor, p.y.floor) }

/-- sprites.Asteroid (minus the cosmetic polygon, see Bullet). -/
structure Asteroid where
  pos : Vec
  vel : Vec
  size : AstSize
  r : ℚ
deriving DecidableEq, Repr

/-- sprites.Asteroid.update: integrate and wrap. -/
def Asteroid.update (cfg : Config) (a : Asteroid) (dt : ℚ) : Asteroid :=
  { a with pos := wrap_pos cfg (a.pos + a.vel * dt) }

/-- sprites.Ship. -/
structure Ship where
  pos : Vec
  vel : Vec
  angle : ℚ
  cool : ℚ
  invuln : ℚ
  alive : Bool
  r : ℚ
  rectCenter : ℤ × ℤ
deriving DecidableEq, Repr

/-- sprites.Ship.__init__. -/
def Ship.init (cfg : Config) (pos : Vec) : Ship :=
  { pos := pos, vel := ⟨0, 0⟩, angle := -90, cool := 0, invuln := 0,
    alive := true, r := cfg.SHIP_RADIUS,
    rectCenter := rect0Center cfg.SHIP_RADIUS }

/-- Keyboard snapshot (K_LEFT, K_RIGHT, K_UP are the only keys the core
polls inside update; fire and hyperspace arrive as World calls). -/
structure Keys where
  left : Bool
  right : Bool
  up : Bool
deriving DecidableEq, Repr

/-- sprites.Ship.control: turn, thrust along the (already turned) facing,
then apply frictional decay to the velocity unconditionally. -/
def Ship.control (cfg : Config) (s : Ship) (keys : Keys) (dt : ℚ) : Ship :=
  let a1 := if keys.left then s.angle - cfg.SHIP_TURN_SPEED * dt else s.angle
  let a2 := if keys.right then a1 + cfg.SHIP_TURN_SPEED * dt else a1
  let v1 := if keys.up then s.vel + cfg.angle_to_vec a2 * (cfg.SHIP_THRUST * dt)
            else s.vel
  { s with angle := a2, vel := v1 * cfg.SHIP_FRICTION }

/-- sprites.Ship.fire: a bullet only when the cooldown has elapsed. -/
def Ship.fire (cfg : Config) (s : Ship) : Option Bullet × Ship :=
  if 0 < s.cool then (none, s)
  else
    let dir := cfg.angle_to_vec s.angle
    let pos := s.pos + dir * (s.r + 6)
    let vel := s.vel + dir * cfg.SHIP_BULLET_SPEED
    (some (Bullet.init cfg pos vel), { s with cool := cfg.SHIP_FIRE_RATE })

/-- sprites.Ship.hyperspace: random position, zero velocity, and a one
second invulnerability window.  (World.hyperspace never calls this.) -/
def Ship.hyperspace (cfg : Config) (g : Rng) (s : Ship) : Ship × Rng :=
  let rx := g.uni 0 cfg.WIDTH
  let ry := rx.2.uni 0 cfg.HEIGHT
  ({ s with pos := ⟨rx.1, ry.1⟩, vel := ⟨0, 0⟩, invuln := 1 }, ry.2)

/-- sprites.Ship.update: decrement the cooldown and invulnerability timers
only while positive (no clamping in the source), integrate, wrap, refresh
the rect center. -/
def Ship.update (cfg : Config) (s : Ship) (dt : ℚ) : Ship :=
  let c := if 0 < s.cool then s.cool - dt else s.cool
  let i := if 0 < s.invuln then s.invuln - dt else s.invuln
  let p := wrap_pos cfg (s.pos + s.vel * dt)
  { s with cool := c, invuln := i, pos := p,
           rectCenter := (p.x.floor, p.y.floor) }

/-- sprites.UFO.  `channel` is the audio channel acquired at construction
(none when allocation failed); the source never clears the field. -/
structure UFO where
  pos : Vec
  small : Bool
  r : ℚ
  speed : ℚ
  dir : Vec
  shootTimer : ℚ
  shootDelay : ℚ
  channel : Option ℕ
deriving DecidableEq, Repr

/-- sprites.UFO.__init__: fixed direction (biased toward the target for a
small UFO with a target, mostly horizontal otherwise), a random initial
shoot timer, and the engine-sound channel allocation. -/
def UFO.init (cfg : Config) (g : Rng) (pos : Vec) (small : Bool)
    (target : Option Vec) : UFO × Rng :=
  let dg : Vec × Rng :=
    match small, target with
    | true, some t =>
        let d0 := t - pos
        let d1 := if 0 < d0.normSq then cfg.normalizeV d0 else ⟨1, 0⟩
        let jx := g.uni (-(1/5)) (1/5)
        let jy := jx.2.uni (-(1/5)) (1/5)
        (cfg.normalizeV ⟨d1.x + jx.1, d1.y + jy.1⟩, jy.2)
    | _, _ =>
        let dx : ℚ := if pos.x < cfg.WIDTH / 2 then 1 else -1
        let jy := g.uni (-(1/2)) (1/2)
        (cfg.normalizeV ⟨dx, jy.1⟩, jy.2)
  let st := dg.2.uni 0 1
  let ch := st.2.findChannel
  ({ pos := pos, small := small,
     r := if small then cfg.UFO_SMALL_R else cfg.UFO_BIG_R,
     speed := cfg.UFO_SPEED, dir := dg.1, shootTimer := st.1,
     shootDelay := if small then cfg.UFO_FIRE_RATE_SMALL
                   else cfg.UFO_FIRE_RATE_BIG,
     channel := ch.1 }, ch.2)

/-- sprites.UFO.update: advance along the fixed direction, wrap, decrement
the shoot timer while positive. -/
def UFO.update (cfg : Config) (u : UFO) (dt : ℚ) : UFO :=
  { u with pos := wrap_pos cfg (u.pos + u.dir * (u.speed * dt)),
           shootTimer := if 0 < u.shootTimer then u.shootTimer - dt
                         else u.shootTimer }

/-- sprites.UFO.fire: nothing while the shoot timer is positive; otherwise
reset the timer and emit a bullet aimed with jitter at the target (small
UFO with a living target) or in a random direction. -/
def UFO.fire (cfg : Config) (g : Rng) (u : UFO) (target : Option Vec) :
    Option Bullet × UFO × Rng :=
  if 0 < u.shootTimer then (none, u, g)
  else
    let u' := { u with shootTimer := u.shootDelay }
    match u.small, target with
    | true, some t =>
        let base := cfg.vec_angle (t - u.pos)
        let rj := g.uni (-5) 5
        let dir := cfg.angle_to_vec (base + rj.1)
        (some (Bullet.init cfg (u.pos + dir * (u.r + 10))
                 (dir * cfg.UFO_BULLET_SPEED)), u', rj.2)
    | _, _ =>
        let ra := g.uni 0 360
        let dir := cfg.angle_to_vec ra.1
        (some (Bullet.init cfg (u.pos + dir * (u.r + 10))
                 (dir * cfg.UFO_BULLET_SPEED)), u', ra.2)

/-- The channel.stop() emission of sprites.UFO.kill: the id stopped, if the
UFO holds a channel.  (The source guards with hasattr and a None check but
never clears the field, so a second kill stops the channel again.) -/
def UFO.killStops (u : UFO) : List ℕ :=
  match u.channel with
  | some c => [c]
  | none => []

/-- systems.World.  The all_sprites aggregate only re-iterates the typed
collections for update and draw and is not stored separately. -/
structure World where
  ship : Ship
  bullets : List Bullet
  enemy_bullets : List Bullet
  asteroids : List Asteroid
  ufos : List UFO
  score : ℕ
  lives : ℤ
  wave : ℕ
  wave_cool : ℚ
  safe : ℚ
  ufo_timer : ℚ
deriving DecidableEq, Repr

/-- Modelled from the spec: utils.rand_edge_pos is in the missing utils.py.
A random point on the arena boundary: one draw picks the edge, a second the
coordinate along it. -/
def rand_edge_pos (cfg : Config) (g : Rng) : Vec × Rng :=
  let r1 := g.uni 0 1
  let r2 := r1.2.uni 0 1
  let p : Vec :=
    if r1.1 < 1/4 then ⟨r2.1 * cfg.WIDTH, 0⟩
    else if r1.1 < 1/2 then ⟨r2.1 * cfg.WIDTH, cfg.HEIGHT⟩
    else if r1.1 < 3/4 then ⟨0, r2.1 * cfg.HEIGHT⟩
    else ⟨cfg.WIDTH, r2.1 * cfg.HEIGHT⟩
  (p, r2.2)

/-- The rejection loop of systems.World.start_wave: redraw an edge position
while it lies within 150 of the ship.  The fuel argument makes the loop a
total function; callers pass one more than the oracle length, after which
the oracle is constant and a further retry could not change the draw. -/
def randEdgeAway (cfg : Config) (shipPos : Vec) : ℕ → Rng → Vec × Rng
  | 0, g => rand_edge_pos cfg g
  | n + 1, g =>
      let r := rand_edge_pos cfg g
      if distSq r.1 shipPos < 150 ^ 2 then randEdgeAway cfg shipPos n r.2
      else r

/-- Modelled from the spec: utils.rand_unit_vec is in the missing utils.py.
A random direction: one draw for the angle, turned into a unit vector by
the external direction constructor. -/
def rand_unit_vec (cfg : Config) (g : Rng) : Vec × Rng :=
  let ra := g.uni 0 360
  (cfg.angle_to_vec ra.1, ra.2)

/-- systems.World.spawn_asteroid: append to the asteroid collection (and to
all_sprites, which the model derives). -/
def World.spawn_asteroid (cfg : Config) (w : World) (pos vel : Vec)
    (size : AstSize) : World :=
  { w with asteroids :=
      w.asteroids ++ [{ pos := pos, vel := vel, size := size,
                        r := cfg.astR size }] }

/-- The spawning loop of systems.World.start_wave: count asteroids, each at
an edge position kept at least 150 from the ship, with a random direction
(angle in [0, tau)) and speed in [AST_VEL_MIN, AST_VEL_MAX]. -/
def World.waveSpawnLoop (cfg : Config) : Rng → World → ℕ → World × Rng
  | g, w, 0 => (w, g)
  | g, w, n + 1 =>
      let rp := randEdgeAway cfg w.ship.pos (g.us.length + 1) g
      let ra := rp.2.uni 0 cfg.TAU
      let rs := ra.2.uni cfg.AST_VEL_MIN cfg.AST_VEL_MAX
      World.waveSpawnLoop cfg rs.2
        (World.spawn_asteroid cfg w rp.1 (cfg.rad_to_vec ra.1 * rs.1)
          AstSize.L) n

/-- systems.World.start_wave: increment the wave number first, then spawn
3 + wave Large asteroids. -/
def World.start_wave (cfg : Config) (g : Rng) (w : World) : World × Rng :=
  let w1 := { w with wave := w.wave + 1 }
  World.waveSpawnLoop cfg g w1 (3 + w1.wave)

/-- systems.World.__init__: fresh ship at the arena center, empty
collections, initial counters, then the first wave. -/
def World.init (cfg : Config) (g : Rng) : World × Rng :=
  World.start_wave cfg g
    { ship := Ship.init cfg ⟨cfg.WIDTH / 2, cfg.HEIGHT / 2⟩,
      bullets := [], enemy_bullets := [], asteroids := [], ufos := [],
      score := 0, lives := cfg.START_LIVES, wave := 0,
      wave_cool := cfg.WAVE_DELAY, safe := cfg.SAFE_SPAWN_TIME,
      ufo_timer := cfg.UFO_SPAWN_EVERY }

/-- systems.World.spawn_ufo: random size, random height on a random side,
aimed at the living ship (or the arena center). -/
def World.spawn_ufo (cfg : Config) (g : Rng) (w : World) : World × Rng :=
  let rs := g.uni 0 1
  let ry := rs.2.uni 0 cfg.HEIGHT
  let rx := ry.2.uni 0 1
  let x : ℚ := if rx.1 < 1/2 then 0 else cfg.WIDTH
  let target := if w.ship.alive then w.ship.pos
                else (⟨cfg.WIDTH / 2, cfg.HEIGHT / 2⟩ : Vec)
  let ru := UFO.init cfg rx.2 ⟨x, ry.1⟩ (decide (rs.1 < 1/2)) (some target)
  ({ w with ufos := w.ufos ++ [ru.1] }, ru.2)

/-- systems.World.try_fire: refuse beyond MAX_BULLETS simultaneous player
bullets, otherwise take whatever Ship.fire yields. -/
def World.try_fire (cfg : Config) (w : World) : World :=
  if cfg.MAX_BULLETS ≤ w.bullets.length then w
  else
    let r := Ship.fire cfg w.ship
    match r.1 with
    | none => { w with ship := r.2 }
    | some b => { w with ship := r.2, bullets := w.bullets ++ [b] }

/-- systems.World.hyperspace: nothing when the ship is dead; otherwise a
random position and zero velocity.  The source mutates pos and vel inline
and does not call Ship.hyperspace, so no invulnerability is granted. -/
def World.hyperspace (cfg : Config) (g : Rng) (w : World) : World × Rng :=
  if w.ship.alive then
    let rx := g.uni 0 cfg.WIDTH
    let ry := rx.2.uni 0 cfg.HEIGHT
    ({ w with ship := { w.ship with pos := ⟨rx.1, ry.1⟩, vel := ⟨0, 0⟩ } },
     ry.2)
  else (w, g)

/-- The collision predicate of collision pass 1 (player bullets versus
asteroids): center distance strictly below the canonical asteroid radius;
the bullet radius is not consulted. -/
def astBulletHit (a : Asteroid) (b : Bullet) : Bool :=
  decide (distSq a.pos b.pos < a.r ^ 2)

/-- Ship-asteroid contact of collision pass 2: sum of radii. -/
def shipAstHit (s : Ship) (a : Asteroid) : Bool :=
  decide (distSq a.pos s.pos < (a.r + s.r) ^ 2)

/-- Ship-UFO contact of collision pass 2: sum of radii. -/
def shipUfoHit (s : Ship) (u : UFO) : Bool :=
  decide (distSq u.pos s.pos < (u.r + s.r) ^ 2)

/-- pg.sprite.collide_circle for Ship versus an enemy Bullet: pygame takes
the integer rect centers and, lacking a radius attribute, derives each
radius as half the rect diagonal, that is width times sqrt 2 over 2 for the
square rects both sprites carry; squaring turns the test
dist ≤ ra + rb into 2 dist² ≤ (wa + wb)² over the integers. -/
def collideCircleSB (s : Ship) (b : Bullet) : Bool :=
  decide (2 * ((s.rectCenter.1 - b.rectCenter.1) ^ 2 +
               (s.rectCenter.2 - b.rectCenter.2) ^ 2)
          ≤ ((2 * s.r).floor + (2 * b.r).floor) ^ 2)

/-- UFO-asteroid contact of collision pass 4: sum of radii. -/
def ufoAstHit (u : UFO) (a : Asteroid) : Bool :=
  decide (distSq u.pos a.pos < (u.r + a.r) ^ 2)

/-- The per-child spawning loop of systems.World.split_asteroid: each child
starts at the parent position with a random direction and a speed 1.2 times
a fresh draw from the base range. -/
def World.spawnChildren (cfg : Config) : Rng → World → Vec → List AstSize →
    World × Rng
  | g, w, _, [] => (w, g)
  | g, w, pos, sz :: rest =>
      let rd := rand_unit_vec cfg g
      let rs := rd.2.uni cfg.AST_VEL_MIN cfg.AST_VEL_MAX
      World.spawnChildren cfg rs.2
        (World.spawn_asteroid cfg w pos (rd.1 * (rs.1 * (6/5))) sz) pos rest

/-- systems.World.split_asteroid: award the size score, remove the parent
(sprite kill, modelled as erasure of that element), spawn the children. -/
def World.split_asteroid (cfg : Config) (g : Rng) (w : World)
    (a : Asteroid) : World × Rng :=
  World.spawnChildren cfg g
    { w with score := w.score + cfg.astScore a.size,
             asteroids := w.asteroids.erase a }
    a.pos a.size.splitSizes

/-- Split every asteroid of the list in order (the iteration over the
groupcollide result dicts of passes 1 and 4). -/
def World.splitList (cfg : Config) : Rng → World → List Asteroid →
    World × Rng
  | g, w, [] => (w, g)
  | g, w, a :: rest =>
      let r := World.split_asteroid cfg g w a
      World.splitList cfg r.2 r.1 rest

/-- pg.sprite.groupcollide(asteroids, bullets, False, True, ...): walk the
asteroids in group order; for each, the bullets currently alive that hit it
are killed, and the asteroid is recorded when at least one hit.  Returns
the hit asteroids in order and the surviving bullets. -/
def collectHits : List Asteroid → List Bullet → List Asteroid × List Bullet
  | [], bs => ([], bs)
  | a :: rest, bs =>
      let hit := bs.any (fun b => astBulletHit a b)
      let bs' := bs.filter (fun b => !astBulletHit a b)
      let rec_ := collectHits rest bs'
      ((if hit then [a] else []) ++ rec_.1, rec_.2)

/-- Collision pass 1 of systems.World.handle_collisions: player bullets
versus asteroids, then split each hit asteroid. -/
def World.phase_bullets_asteroids (cfg : Config) (g : Rng) (w : World) :
    World × Rng :=
  let ch := collectHits w.asteroids w.bullets
  World.splitList cfg g { w with bullets := ch.2 } ch.1

/-- systems.World.ship_die: a no-op on a dead ship; otherwise decrement
lives and either respawn in place at the center with a safe-spawn window
(lives still ≥ 0) or rebuild the whole world via __init__.  The reset path
does not stop the audio channels of the live UFOs it discards. -/
def World.ship_die (cfg : Config) (g : Rng) (w : World) : World × Rng :=
  if w.ship.alive then
    let lives' := w.lives - 1
    if 0 ≤ lives' then
      ({ w with lives := lives', safe := cfg.SAFE_SPAWN_TIME,
                ship := { w.ship with
                  pos := ⟨cfg.WIDTH / 2, cfg.HEIGHT / 2⟩, vel := ⟨0, 0⟩,
                  angle := -90, invuln := cfg.SAFE_SPAWN_TIME,
                  alive := true } }, g)
    else World.init cfg g
  else (w, g)

/-- The asteroid block of collision pass 2: the first asteroid touching
the ship kills it and breaks out of the loop. -/
def World.phase2a (cfg : Config) (g : Rng) (w : World) : World × Rng :=
  if w.asteroids.any (fun a => shipAstHit w.ship a) then World.ship_die cfg g w
  else (w, g)

/-- The UFO block of collision pass 2, guarded by the ship reading alive
(which a respawn has just set back to true). -/
def World.phase2b (cfg : Config) (r : World × Rng) : World × Rng :=
  if r.1.ship.alive && r.1.ufos.any (fun u => shipUfoHit r.1.ship u) then
    World.ship_die cfg r.2 r.1
  else r

/-- The enemy-bullet block of collision pass 2: the spritecollide removes
every colliding enemy bullet, then any hit kills the ship. -/
def World.phase2c (cfg : Config) (r : World × Rng) : World × Rng :=
  if r.1.ship.alive then
    if r.1.enemy_bullets.any (fun b => collideCircleSB r.1.ship b) then
      World.ship_die cfg r.2
        { r.1 with enemy_bullets :=
            r.1.enemy_bullets.filter (fun b => !collideCircleSB r.1.ship b) }
    else
      ({ r.1 with enemy_bullets :=
           r.1.enemy_bullets.filter (fun b => !collideCircleSB r.1.ship b) },
       r.2)
  else r

/-- Collision pass 2 of systems.World.handle_collisions: only when the ship
is neither invulnerable nor inside the safe-spawn window; asteroid contact,
then UFO contact, then enemy-bullet contact, in source order. -/
def World.phase_ship_death (cfg : Config) (g : Rng) (w : World) :
    World × Rng :=
  if w.ship.invuln ≤ 0 ∧ w.safe ≤ 0 then
    World.phase2c cfg (World.phase2b cfg (World.phase2a cfg g w))
  else (w, g)

/-- The inner bullet loop of collision pass 3, for one UFO over a snapshot
of the player bullets: each bullet within the summed radii awards the UFO
score again, kills the UFO again (emitting its channel stop again, since
the channel field is never cleared) and kills the bullet. -/
def World.p3inner (cfg : Config) (u : UFO) : World → List ℕ → List Bullet →
    World × List ℕ
  | w, st, [] => (w, st)
  | w, st, b :: rest =>
      if distSq u.pos b.pos < (u.r + b.r) ^ 2 then
        World.p3inner cfg u
          { w with score := w.score + (if u.small then cfg.UFO_SMALL_SCORE
                                       else cfg.UFO_BIG_SCORE),
                   ufos := w.ufos.erase u,
                   bullets := w.bullets.erase b }
          (st ++ u.killStops) rest
      else World.p3inner cfg u w st rest

/-- The outer loop of collision pass 3 over a snapshot of the UFOs; each
iteration snapshots the bullets then alive. -/
def World.p3outer (cfg : Config) : World → List ℕ → List UFO →
    World × List ℕ
  | w, st, [] => (w, st)
  | w, st, u :: rest =>
      let r := World.p3inner cfg u w st w.bullets
      World.p3outer cfg r.1 r.2 rest

/-- Collision pass 3 of systems.World.handle_collisions: player bullets
versus UFOs. -/
def World.phase_bullets_ufos (cfg : Config) (w : World) : World × List ℕ :=
  World.p3outer cfg w [] w.ufos

/-- The detection half of collision pass 4,
pg.sprite.groupcollide(ufos, asteroids, True, False, ...): walk a snapshot
of the UFOs; each UFO touching at least one asteroid is recorded with its
full hit list and killed on the spot (stopping its channel once). -/
def World.crashScan : World → List ℕ → List (UFO × List Asteroid) →
    List UFO → World × List ℕ × List (UFO × List Asteroid)
  | w, st, acc, [] => (w, st, acc)
  | w, st, acc, u :: rest =>
      let hits := w.asteroids.filter (fun a => ufoAstHit u a)
      if hits.isEmpty then World.crashScan w st acc rest
      else World.crashScan { w with ufos := w.ufos.erase u }
        (st ++ u.killStops) (acc ++ [(u, hits)]) rest

/-- The resolution half of collision pass 4: for each crashed UFO the
source stops its channel once more (the explicit channel.stop guarded only
by a truthiness test) and then splits every asteroid it touched. -/
def World.crashResolve (cfg : Config) : Rng → World → List ℕ →
    List (UFO × List Asteroid) → World × Rng × List ℕ
  | g, w, st, [] => (w, g, st)
  | g, w, st, (u, hits) :: rest =>
      let r := World.splitList cfg g w hits
      World.crashResolve cfg r.2 r.1 (st ++ u.killStops) rest

/-- Collision pass 4 of systems.World.handle_collisions: UFOs versus
asteroids. -/
def World.phase_ufo_asteroids (cfg : Config) (g : Rng) (w : World) :
    World × Rng × List ℕ :=
  let s := World.crashScan w [] [] w.ufos
  World.crashResolve cfg g s.1 s.2.1 s.2.2

/-- systems.World.handle_collisions: the four passes in source order; the
third component of the result is the log of channel stops emitted. -/
def World.handle_collisions (cfg : Config) (g : Rng) (w : World) :
    World × Rng × List ℕ :=
  let r1 := World.phase_bullets_asteroids cfg g w
  let r2 := World.phase_ship_death cfg r1.2 r1.1
  let r3 := World.phase_bullets_ufos cfg r2.1
  let r4 := World.phase_ufo_asteroids cfg r2.2 r3.1
  (r4.1, r4.2.1, r3.2 ++ r4.2.2)

/-- Steps 1 and 2 of systems.World.update: player input to the ship, then
every sprite advances; bullets whose ttl crossed zero killed themselves
during the sweep. -/
def World.step_move (cfg : Config) (w : World) (dt : ℚ) (keys : Keys) :
    World :=
  { w with
    ship := Ship.update cfg (Ship.control cfg w.ship keys dt) dt,
    bullets := (w.bullets.map (fun b => Bullet.update cfg b dt)).filter
      (fun b => decide (0 < b.ttl)),
    enemy_bullets :=
      (w.enemy_bullets.map (fun b => Bullet.update cfg b dt)).filter
        (fun b => decide (0 < b.ttl)),
    asteroids := w.asteroids.map (fun a => Asteroid.update cfg a dt),
    ufos := w.ufos.map (fun u => UFO.update cfg u dt) }

/-- The UFO volley of systems.World.update: every UFO attempts to fire at
the living ship; timers of the UFOs are updated in place and the new
bullets are collected in order. -/
def World.ufoFireLoop (cfg : Config) (target : Option Vec) : Rng →
    List UFO → List UFO × List Bullet × Rng
  | g, [] => ([], [], g)
  | g, u :: rest =>
      let r := UFO.fire cfg g u target
      let tail_ := World.ufoFireLoop cfg target r.2.2 rest
      (r.2.1 :: tail_.1,
       (match r.1 with | some b => [b] | none => []) ++ tail_.2.1,
       tail_.2.2)

/-- Step 3 of systems.World.update: run the volley and append the resulting
bullets to the enemy-bullet collection. -/
def World.step_ufo_fire (cfg : Config) (g : Rng) (w : World) :
    World × Rng :=
  let target := if w.ship.alive then some w.ship.pos else none
  let r := World.ufoFireLoop cfg target g w.ufos
  ({ w with ufos := r.1, enemy_bullets := w.enemy_bullets ++ r.2.1 },
   r.2.2)

/-- Step 4 of systems.World.update: while the safe-spawn timer runs, pin
the ship invulnerability at one half; afterwards decay it toward zero,
clamped there. -/
def World.step_safe (cfg : Config) (w : World) (dt : ℚ) : World :=
  if 0 < w.safe then
    { w with safe := w.safe - dt, ship := { w.ship with invuln := 1/2 } }
  else
    { w with ship := { w.ship with invuln := max (w.ship.invuln - dt) 0 } }

/-- Step 5 of systems.World.update: the UFO spawn countdown. -/
def World.step_ufo_spawn (cfg : Config) (g : Rng) (w : World) (dt : ℚ) :
    World × Rng :=
  let w1 := { w with ufo_timer := w.ufo_timer - dt }
  if w1.ufo_timer ≤ 0 then
    let r := World.spawn_ufo cfg g w1
    ({ r.1 with ufo_timer := cfg.UFO_SPAWN_EVERY }, r.2)
  else (w1, g)

/-- Step 7 of systems.World.update: wave progression once no asteroids
remain. -/
def World.step_wave (cfg : Config) (g : Rng) (w : World) (dt : ℚ) :
    World × Rng :=
  if w.asteroids.isEmpty && decide (w.wave_cool ≤ 0) then
    let r := World.start_wave cfg g w
    ({ r.1 with wave_cool := cfg.WAVE_DELAY }, r.2)
  else if w.asteroids.isEmpty then
    ({ w with wave_cool := w.wave_cool - dt }, g)
  else (w, g)

/-- systems.World.update: the per-frame pipeline in source order.  The
third component is the log of audio-channel stops emitted this frame. -/
def World.update (cfg : Config) (g : Rng) (w : World) (dt : ℚ)
    (keys : Keys) : World × Rng × List ℕ :=
  let w1 := World.step_move cfg w dt keys
  let r2 := World.step_ufo_fire cfg g w1
  let w3 := World.step_safe cfg r2.1 dt
  let r4 := World.step_ufo_spawn cfg r2.2 w3 dt
  let r5 := World.handle_collisions cfg r4.2 r4.1
  let r6 := World.step_wave cfg r5.2.1 r5.1 dt
  (r6.1, r6.2, r5.2.2)

/-
  Concrete fixtures used to instantiate the theorems below.  The numeric
  values of the missing config.py are unknown; these stand in with values
  of plausible magnitude, and the abstract external math functions are
  given simple total implementations (the theorems never rely on their
  trigonometric identities).
-/

/-- A concrete configuration for evaluated statements. -/
def cfgA : Config :=
  { WIDTH := 800, HEIGHT := 600, START_LIVES := 3,
    WAVE_DELAY := 2, SAFE_SPAWN_TIME := 3, UFO_SPAWN_EVERY := 10,
    SHIP_RADIUS := 12, SHIP_TURN_SPEED := 200, SHIP_THRUST := 300,
    SHIP_FRICTION := 99/100, SHIP_FIRE_RATE := 1/4,
    SHIP_BULLET_SPEED := 500,
    BULLET_TTL := 1, BULLET_RADIUS := 2, MAX_BULLETS := 4,
    UFO_SPEED := 60, UFO_BULLET_SPEED := 300,
    UFO_SMALL_R := 10, UFO_BIG_R := 20,
    UFO_SMALL_SCORE := 200, UFO_BIG_SCORE := 100,
    UFO_FIRE_RATE_SMALL := 1, UFO_FIRE_RATE_BIG := 2,
    AST_VEL_MIN := 30, AST_VEL_MAX := 80, TAU := 710/113,
    astR := fun s => match s with | .L => 40 | .M => 20 | .S => 10,
    astScore := fun s => match s with | .L => 20 | .M => 50 | .S => 100,
    angle_to_vec := fun _ => ⟨1, 0⟩,
    rad_to_vec := fun _ => ⟨1, 0⟩,
    vec_angle := fun _ => 0,
    normalizeV := fun v => v }

/-- The empty randomness oracle (every further draw reads 0 / no channel). -/
def rng0 : Rng := { us := [], chans := [] }

/-- No key held down. -/
def keys0 : Keys := { left := false, right := false, up := false }

/-- A quiet big UFO used by the fixtures: timers high, channel as given. -/
def mkUfo (pos : Vec) (ch : Option ℕ) : UFO :=
  { pos := pos, small := false, r := 20, speed := 60, dir := ⟨1, 0⟩,
    shootTimer := 5, shootDelay := 2, channel := ch }

/-- A calm ship at a given position. -/
def mkShip (pos : Vec) (invuln : ℚ) : Ship :=
  { pos := pos, vel := ⟨0, 0⟩, angle := -90, cool := 0, invuln := invuln,
    alive := true, r := 12,
    rectCenter := (Int.floor pos.x, Int.floor pos.y) }

/-- A stationary Large asteroid. -/
def mkAstL (pos : Vec) : Asteroid :=
  { pos := pos, vel := ⟨0, 0⟩, size := .L, r := 40 }

/-- Fixture for the double-death frame: ship overlapping an asteroid, a UFO
sitting at the arena center where the ship respawns, two lives left. -/
def wDouble : World :=
  { ship := mkShip ⟨100, 100⟩ 0,
    bullets := [], enemy_bullets := [],
    asteroids := [mkAstL ⟨100, 100⟩],
    ufos := [mkUfo ⟨400, 300⟩ none],
    score := 0, lives := 2, wave := 1,
    wave_cool := 2, safe := 0, ufo_timer := 10 }

/-- Fixture for the reset-leak frame: one live UFO holding channel 7, the
ship overlapping an asteroid with lives exhausted, so the death resets the
whole world. -/
def wLeak : World :=
  { ship := mkShip ⟨100, 100⟩ 0,
    bullets := [], enemy_bullets := [],
    asteroids := [mkAstL ⟨100, 100⟩],
    ufos := [mkUfo ⟨600, 500⟩ (some 7)],
    score := 0, lives := 0, wave := 1,
    wave_cool := 2, safe := 0, ufo_timer := 10 }

/-- Fixture for the double-stop frame: a UFO holding channel 3 about to
crash into an asteroid, the invulnerable ship far away. -/
def wCrash : World :=
  { ship := mkShip ⟨600, 500⟩ 5,
    bullets := [], enemy_bullets := [],
    asteroids := [mkAstL ⟨100, 100⟩],
    ufos := [mkUfo ⟨100, 96⟩ (some 3)],
    score := 0, lives := 2, wave := 1,
    wave_cool := 2, safe := 0, ufo_timer := 10 }

/-- Fixture for the score-reset frame: like wLeak but with score 5 and no
UFO. -/
def wScore : World :=
  { ship := mkShip ⟨100, 100⟩ 0,
    bullets := [], enemy_bullets := [],
    asteroids := [mkAstL ⟨100, 100⟩],
    ufos := [],
    score := 5, lives := 0, wave := 1,
    wave_cool := 2, safe := 0, ufo_timer := 10 }

/-- Fixture for hyperspace: a quiet world with a live, currently
vulnerable ship. -/
def wHyp : World :=
  { ship := mkShip ⟨100, 100⟩ 0,
    bullets := [], enemy_bullets := [], asteroids := [], ufos := [],
    score := 0, lives := 2, wave := 1,
    wave_cool := 2, safe := 0, ufo_timer := 10 }

/-- The same world with the ship dead. -/
def wHypDead : World :=
  { wHyp with ship := { wHyp.ship with alive := false } }

/-- Oracle yielding the midpoint on every draw. -/
def rngHalf : Rng := { us := [1/2, 1/2, 1/2, 1/2], chans := [] }

/-- A ship whose fire cooldown is one tenth, for the timer counterexample. -/
def shipCool : Ship := { mkShip ⟨100, 100⟩ 0 with cool := 1/10 }

/-- A ship ready to fire. -/
def shipReady : Ship := mkShip ⟨100, 100⟩ 0

/-- Fixture for the wave-progression witness: empty space, wave delay
already elapsed. -/
def wWave : World :=
  { ship := mkShip ⟨400, 300⟩ 0,
    bullets := [], enemy_bullets := [], asteroids := [], ufos := [],
    score := 0, lives := 2, wave := 1,
    wave_cool := 0, safe := 0, ufo_timer := 10 }

/-- A bullet sitting inside the Large asteroid of the collision witness. -/
def bHit : Bullet :=
  { pos := ⟨110, 100⟩, vel := ⟨0, 0⟩, ttl := 1, r := 2,
    rectCenter := (110, 100) }

/-
  Theorems, one per claim of the specification review, with witnesses for
  the hypothesis-bearing ones.
-/

/-- Claim C1: the claim states that every path removing a UFO releases its
audio channel exactly once.  The code violates it twice over: the full
world reset triggered by a fatal ship death discards the live UFO holding
channel 7 while the frame emits no channel stop at all (and the UFO
collection afterwards is empty), and a UFO crashing into an asteroid has
its channel 3 stopped twice in one frame (once by kill inside
groupcollide, once by the explicit stop in the crash loop). -/
theorem ufo_audio_release_unbalanced :
    wLeak.ufos.map UFO.channel = [some 7]
    ∧ (World.update cfgA rng0 wLeak (1/10) keys0).2.2 = []
    ∧ (World.update cfgA rng0 wLeak (1/10) keys0).1.ufos = []
    ∧ wCrash.ufos.map UFO.channel = [some 3]
    ∧ (World.update cfgA rng0 wCrash (1/10) keys0).2.2 = [3, 3] := by
  with_unfolding_all decide

/-- Claim C2: the claim states that at most one ship death can happen per
frame.  In the code, ship_die respawns the ship with alive set back to
true, so the alive guards of the later checks do not stop the frame: here
the ship dies on an asteroid, respawns at the center where a UFO sits, and
dies again, so lives falls from 2 to 0 in a single update. -/
theorem two_ship_deaths_in_one_frame :
    wDouble.lives = 2
    ∧ (World.update cfgA rng0 wDouble (1/10) keys0).1.lives = 0 := by
  with_unfolding_all decide

/-- Claim C3, counterexample: the claim states the score never decreases
across updates, but a fatal ship death resets the world and with it the
score: from score 5 one update reaches score 0. -/
theorem score_drops_to_zero_on_reset :
    wScore.score = 5
    ∧ (World.update cfgA rng0 wScore (1/10) keys0).1.score = 0 := by
  with_unfolding_all decide

/-- Claim C5: the claim states World.hyperspace grants a brief
invulnerability window.  The code teleports and zeroes velocity but leaves
invuln untouched (it never calls Ship.hyperspace, which would set it to
one); on a dead ship it is a no-op as claimed. -/
theorem hyperspace_no_invulnerability_window :
    wHyp.ship.invuln = 0
    ∧ (World.hyperspace cfgA rngHalf wHyp).1.ship.pos = ⟨400, 300⟩
    ∧ (World.hyperspace cfgA rngHalf wHyp).1.ship.vel = ⟨0, 0⟩
    ∧ (World.hyperspace cfgA rngHalf wHyp).1.ship.invuln = 0
    ∧ (Ship.hyperspace cfgA rngHalf wHyp.ship).1.invuln = 1
    ∧ World.hyperspace cfgA rngHalf wHypDead = (wHypDead, rngHalf) := by
  with_unfolding_all decide

/-- Claim C6, counterexample: the claim states the timers are clamped at
zero so no update leaves them negative; but with cooldown one tenth and dt
one, Ship.update leaves the cooldown strictly negative. -/
theorem ship_update_cooldown_goes_negative :
    shipCool.cool = 1/10
    ∧ (Ship.update cfgA shipCool 1).cool < 0 := by
  with_unfolding_all decide

/-- Claim C6, amended: Ship.update decrements a strictly positive timer by
dt without clamping (so it may land below zero, but never below its old
value minus dt, and never increases), and leaves a non-positive timer
unchanged; likewise for the invulnerability timer. -/
theorem ship_update_timer_step_bounds (cfg : Config) (s : Ship) (dt : ℚ)
    (h : 0 ≤ dt) :
    ((Ship.update cfg s dt).cool ≤ s.cool
      ∧ s.cool - dt ≤ (Ship.update cfg s dt).cool
      ∧ (s.cool ≤ 0 → (Ship.update cfg s dt).cool = s.cool))
    ∧ ((Ship.update cfg s dt).invuln ≤ s.invuln
      ∧ s.invuln - dt ≤ (Ship.update cfg s dt).invuln
      ∧ (s.invuln ≤ 0 → (Ship.update cfg s dt).invuln = s.invuln)) := by
  unfold Ship.update
  constructor
  · simp only
    split_ifs with hc
    · exact ⟨by linarith, by linarith, fun h0 => absurd h0 (not_le.mpr hc)⟩
    · exact ⟨le_refl _, by linarith [not_lt.mp hc], fun _ => rfl⟩
  · simp only
    split_ifs with hi
    · exact ⟨by linarith, by linarith, fun h0 => absurd h0 (not_le.mpr hi)⟩
    · exact ⟨le_refl _, by linarith [not_lt.mp hi], fun _ => rfl⟩

/-- Witness for the amended C6 theorem at a concrete ship and dt. -/
theorem ship_update_timer_step_bounds_witness :
    (0:ℚ) ≤ 1
    ∧ (((Ship.update cfgA shipCool 1).cool ≤ shipCool.cool
        ∧ shipCool.cool - 1 ≤ (Ship.update cfgA shipCool 1).cool
        ∧ (shipCool.cool ≤ 0 → (Ship.update cfgA shipCool 1).cool = shipCool.cool))
      ∧ ((Ship.update cfgA shipCool 1).invuln ≤ shipCool.invuln
        ∧ shipCool.invuln - 1 ≤ (Ship.update cfgA shipCool 1).invuln
        ∧ (shipCool.invuln ≤ 0 →
            (Ship.update cfgA shipCool 1).invuln = shipCool.invuln))) :=
  ⟨by norm_num, ship_update_timer_step_bounds cfgA shipCool 1 (by norm_num)⟩

/-- Claim C8: Ship.fire yields a bullet exactly when the cooldown has
elapsed; the bullet spawns ahead of the nose with the ship velocity plus
muzzle velocity along the facing, and the cooldown resets to the fire-rate
interval; on cooldown it returns no bullet and changes nothing. -/
theorem ship_fire_cooldown_spec (cfg : Config) (s : Ship) :
    ((Ship.fire cfg s).1.isSome = true ↔ s.cool ≤ 0)
    ∧ (0 < s.cool → Ship.fire cfg s = (none, s))
    ∧ (s.cool ≤ 0 →
        Ship.fire cfg s =
          (some (Bullet.init cfg
                  (s.pos + cfg.angle_to_vec s.angle * (s.r + 6))
                  (s.vel + cfg.angle_to_vec s.angle * cfg.SHIP_BULLET_SPEED)),
           { s with cool := cfg.SHIP_FIRE_RATE })) := by
  unfold Ship.fire
  by_cases h : 0 < s.cool
  · simp [h, not_le.mpr h]
  · simp [h, not_lt.mp h]

/-- Witness for C8 at a ship with elapsed cooldown. -/
theorem ship_fire_cooldown_spec_witness :
    shipReady.cool ≤ 0
    ∧ Ship.fire cfgA shipReady =
        (some (Bullet.init cfgA
                (shipReady.pos + cfgA.angle_to_vec shipReady.angle * (shipReady.r + 6))
                (shipReady.vel + cfgA.angle_to_vec shipReady.angle * cfgA.SHIP_BULLET_SPEED)),
         { shipReady with cool := cfgA.SHIP_FIRE_RATE }) :=
  ⟨by with_unfolding_all decide,
   (ship_fire_cooldown_spec cfgA shipReady).2.2 (by with_unfolding_all decide)⟩

/-- The wave spawning loop only appends asteroids: every other field of
the world is untouched and the asteroid count grows by exactly the loop
count. -/
theorem waveSpawnLoop_fields (cfg : Config) (n : ℕ) : ∀ (g : Rng) (w : World),
    (World.waveSpawnLoop cfg g w n).1.score = w.score
    ∧ (World.waveSpawnLoop cfg g w n).1.lives = w.lives
    ∧ (World.waveSpawnLoop cfg g w n).1.wave = w.wave
    ∧ (World.waveSpawnLoop cfg g w n).1.ship = w.ship
    ∧ (World.waveSpawnLoop cfg g w n).1.bullets = w.bullets
    ∧ (World.waveSpawnLoop cfg g w n).1.enemy_bullets = w.enemy_bullets
    ∧ (World.waveSpawnLoop cfg g w n).1.ufos = w.ufos
    ∧ (World.waveSpawnLoop cfg g w n).1.wave_cool = w.wave_cool
    ∧ (World.waveSpawnLoop cfg g w n).1.safe = w.safe
    ∧ (World.waveSpawnLoop cfg g w n).1.ufo_timer = w.ufo_timer
    ∧ (World.waveSpawnLoop cfg g w n).1.asteroids.length
        = w.asteroids.length + n := by
  induction n with
  | zero => intro g w; simp [World.waveSpawnLoop]
  | succ n ih =>
      intro g w
      simp only [World.waveSpawnLoop]
      obtain ⟨h1, h2, h3, h4, h5, h6, h7, h8, h9, h10, h11⟩ := ih _ _
      refine ⟨h1, h2, h3, h4, h5, h6, h7, h8, h9, h10, ?_⟩
      rw [h11]
      simp [World.spawn_asteroid]
      omega

/-- World.__init__ rebuilds the world: zero score, full lives, wave one,
empty collections except the four Large asteroids of the first wave, and a
fresh ship at the arena center. -/
theorem init_facts (cfg : Config) (g : Rng) :
    (World.init cfg g).1.score = 0
    ∧ (World.init cfg g).1.lives = cfg.START_LIVES
    ∧ (World.init cfg g).1.wave = 1
    ∧ (World.init cfg g).1.bullets = []
    ∧ (World.init cfg g).1.enemy_bullets = []
    ∧ (World.init cfg g).1.ufos = []
    ∧ (World.init cfg g).1.asteroids.length = 4
    ∧ (World.init cfg g).1.ship = Ship.init cfg ⟨cfg.WIDTH / 2, cfg.HEIGHT / 2⟩ := by
  unfold World.init World.start_wave
  obtain ⟨h1, h2, h3, h4, h5, h6, h7, h8, h9, h10, h11⟩ :=
    waveSpawnLoop_fields cfg 4 g
      { ship := Ship.init cfg ⟨cfg.WIDTH / 2, cfg.HEIGHT / 2⟩,
        bullets := [], enemy_bullets := [], asteroids := [], ufos := [],
        score := 0, lives := cfg.START_LIVES, wave := 0 + 1,
        wave_cool := cfg.WAVE_DELAY, safe := cfg.SAFE_SPAWN_TIME,
        ufo_timer := cfg.UFO_SPAWN_EVERY }
  simp only at h1 h2 h3 h4 h5 h6 h7 h8 h9 h10 h11
  exact ⟨h1, h2, h3, h5, h6, h7, h11, h4⟩

/-- Claim C4: a ship death with lives going negative performs the full
world reset (score, lives and wave back to their post-construction values,
collections rebuilt with only the fresh wave of four asteroids, one fresh
ship at the arena center); a death with lives still non-negative instead
respawns the ship at the center with zero velocity, default facing and the
safe-spawn invulnerability window, leaving everything else alone. -/
theorem ship_die_respawn_or_reset (cfg : Config) (g : Rng) (w : World)
    (h : w.ship.alive = true) :
    (w.lives - 1 < 0 →
      ((World.ship_die cfg g w).1.score = 0
       ∧ (World.ship_die cfg g w).1.lives = cfg.START_LIVES
       ∧ (World.ship_die cfg g w).1.wave = 1
       ∧ (World.ship_die cfg g w).1.bullets = []
       ∧ (World.ship_die cfg g w).1.enemy_bullets = []
       ∧ (World.ship_die cfg g w).1.ufos = []
       ∧ (World.ship_die cfg g w).1.asteroids.length = 4
       ∧ (World.ship_die cfg g w).1.ship
           = Ship.init cfg ⟨cfg.WIDTH / 2, cfg.HEIGHT / 2⟩))
    ∧ (0 ≤ w.lives - 1 →
      ((World.ship_die cfg g w).1.ship.pos = ⟨cfg.WIDTH / 2, cfg.HEIGHT / 2⟩
       ∧ (World.ship_die cfg g w).1.ship.vel = ⟨0, 0⟩
       ∧ (World.ship_die cfg g w).1.ship.angle = -90
       ∧ (World.ship_die cfg g w).1.ship.invuln = cfg.SAFE_SPAWN_TIME
       ∧ (World.ship_die cfg g w).1.safe = cfg.SAFE_SPAWN_TIME
       ∧ (World.ship_die cfg g w).1.ship.alive = true
       ∧ (World.ship_die cfg g w).1.lives = w.lives - 1
       ∧ (World.ship_die cfg g w).1.score = w.score
       ∧ (World.ship_die cfg g w).1.wave = w.wave
       ∧ (World.ship_die cfg g w).1.asteroids = w.asteroids
       ∧ (World.ship_die cfg g w).1.ufos = w.ufos
       ∧ (World.ship_die cfg g w).1.bullets = w.bullets
       ∧ (World.ship_die cfg g w).1.enemy_bullets = w.enemy_bullets)) := by
  unfold World.ship_die
  rw [h]
  constructor
  · intro hneg
    rw [if_pos rfl, if_neg (by omega : ¬ (0:ℤ) ≤ w.lives - 1)]
    exact init_facts cfg g
  · intro hpos
    rw [if_pos rfl, if_pos hpos]
    simp

/-- Witness for C4 at the exhausted-lives fixture (the reset branch). -/
theorem ship_die_respawn_or_reset_witness :
    wLeak.ship.alive = true
    ∧ wLeak.lives - 1 < 0
    ∧ ((World.ship_die cfgA rng0 wLeak).1.score = 0
       ∧ (World.ship_die cfgA rng0 wLeak).1.lives = cfgA.START_LIVES
       ∧ (World.ship_die cfgA rng0 wLeak).1.wave = 1
       ∧ (World.ship_die cfgA rng0 wLeak).1.bullets = []
       ∧ (World.ship_die cfgA rng0 wLeak).1.enemy_bullets = []
       ∧ (World.ship_die cfgA rng0 wLeak).1.ufos = []
       ∧ (World.ship_die cfgA rng0 wLeak).1.asteroids.length = 4
       ∧ (World.ship_die cfgA rng0 wLeak).1.ship
           = Ship.init cfgA ⟨cfgA.WIDTH / 2, cfgA.HEIGHT / 2⟩) :=
  ⟨rfl, by with_unfolding_all decide,
   (ship_die_respawn_or_reset cfgA rng0 wLeak rfl).1
     (by with_unfolding_all decide)⟩

/-- The world component of World.update, written as the composition of the
named per-frame steps. -/
theorem update_fst (cfg : Config) (g : Rng) (w : World) (dt : ℚ) (keys : Keys) :
    (World.update cfg g w dt keys).1 =
      (World.step_wave cfg
        (World.handle_collisions cfg
          (World.step_ufo_spawn cfg (World.step_ufo_fire cfg g (World.step_move cfg w dt keys)).2
            (World.step_safe cfg (World.step_ufo_fire cfg g (World.step_move cfg w dt keys)).1 dt) dt).2
          (World.step_ufo_spawn cfg (World.step_ufo_fire cfg g (World.step_move cfg w dt keys)).2
            (World.step_safe cfg (World.step_ufo_fire cfg g (World.step_move cfg w dt keys)).1 dt) dt).1).2.1
        (World.handle_collisions cfg
          (World.step_ufo_spawn cfg (World.step_ufo_fire cfg g (World.step_move cfg w dt keys)).2
            (World.step_safe cfg (World.step_ufo_fire cfg g (World.step_move cfg w dt keys)).1 dt) dt).2
          (World.step_ufo_spawn cfg (World.step_ufo_fire cfg g (World.step_move cfg w dt keys)).2
            (World.step_safe cfg (World.step_ufo_fire cfg g (World.step_move cfg w dt keys)).1 dt) dt).1).1
        dt).1 := rfl

/-- With no asteroids, UFOs or enemy bullets, the whole collision pass of
a frame is the identity and stops no audio channel. -/
theorem collisions_no_hazards (cfg : Config) (g : Rng) (sh : Ship)
    (bs : List Bullet) (sc : ℕ) (lv : ℤ) (wv : ℕ) (wc sf ut : ℚ) :
    World.handle_collisions cfg g ⟨sh, bs, [], [], [], sc, lv, wv, wc, sf, ut⟩
      = (⟨sh, bs, [], [], [], sc, lv, wv, wc, sf, ut⟩, g, []) := by
  unfold World.handle_collisions World.phase_bullets_asteroids
    World.phase_ship_death World.phase2a World.phase2b World.phase2c
    World.phase_bullets_ufos World.phase_ufo_asteroids
  simp only [collectHits, World.splitList, World.p3outer, World.crashScan,
    World.crashResolve, List.any_nil, List.filter_nil, Bool.false_and,
    Bool.and_false, if_false, List.append_nil, List.nil_append]
  split_ifs <;> simp_all [World.p3outer, World.crashScan, World.crashResolve]

/-- The wave-progression step on a world without asteroids: an elapsed
wave delay starts the next wave (incremented wave number, 3 + wave Large
asteroids, delay reset), otherwise the delay just counts down. -/
theorem step_wave_facts (cfg : Config) (g : Rng) (w : World) (dt : ℚ)
    (h : w.asteroids = []) :
    (w.wave_cool ≤ 0 →
      (World.step_wave cfg g w dt).1.wave = w.wave + 1
      ∧ (World.step_wave cfg g w dt).1.asteroids.length = 3 + (w.wave + 1)
      ∧ (World.step_wave cfg g w dt).1.wave_cool = cfg.WAVE_DELAY)
    ∧ (0 < w.wave_cool →
      (World.step_wave cfg g w dt).1.wave = w.wave
      ∧ (World.step_wave cfg g w dt).1.asteroids = []
      ∧ (World.step_wave cfg g w dt).1.wave_cool = w.wave_cool - dt) := by
  unfold World.step_wave World.start_wave
  constructor
  · intro hwc
    rw [if_pos (by simp [h, hwc])]
    obtain ⟨h1, h2, h3, h4, h5, h6, h7, h8, h9, h10, h11⟩ :=
      waveSpawnLoop_fields cfg (3 + ({ w with wave := w.wave + 1 } : World).wave) g
        { w with wave := w.wave + 1 }
    refine ⟨?_, ?_, ?_⟩
    · simpa using h3
    · simp only [h11]
      simp [h]
    · simp
  · intro hwc
    rw [if_neg (by simp [not_le.mpr hwc]), if_pos (by simp [h])]
    exact ⟨rfl, h, rfl⟩

/-- Claim C7: in a frame with no asteroids left (and nothing else going
on: no bullets in flight toward anything, no UFOs, and a UFO spawn timer
that does not expire), World.update counts the wave delay down; once it
has elapsed, the new wave starts with 3 + wave asteroids where wave is the
incremented wave number. -/
theorem wave_progression (cfg : Config) (g : Rng) (dt : ℚ) (keys : Keys)
    (sh : Ship) (bs : List Bullet) (sc : ℕ) (lv : ℤ) (wv : ℕ) (wc sf ut : ℚ)
    (hut : 0 < ut - dt) :
    (wc ≤ 0 →
      ((World.update cfg g ⟨sh, bs, [], [], [], sc, lv, wv, wc, sf, ut⟩ dt keys).1.wave = wv + 1
       ∧ (World.update cfg g ⟨sh, bs, [], [], [], sc, lv, wv, wc, sf, ut⟩ dt keys).1.asteroids.length = 3 + (wv + 1)
       ∧ (World.update cfg g ⟨sh, bs, [], [], [], sc, lv, wv, wc, sf, ut⟩ dt keys).1.wave_cool = cfg.WAVE_DELAY))
    ∧ (0 < wc →
      ((World.update cfg g ⟨sh, bs, [], [], [], sc, lv, wv, wc, sf, ut⟩ dt keys).1.wave = wv
       ∧ (World.update cfg g ⟨sh, bs, [], [], [], sc, lv, wv, wc, sf, ut⟩ dt keys).1.asteroids = []
       ∧ (World.update cfg g ⟨sh, bs, [], [], [], sc, lv, wv, wc, sf, ut⟩ dt keys).1.wave_cool = wc - dt)) := by
  simp only [update_fst]
  by_cases hsf : 0 < sf
  · have hpre : (World.step_ufo_spawn cfg
        (World.step_ufo_fire cfg g (World.step_move cfg ⟨sh, bs, [], [], [], sc, lv, wv, wc, sf, ut⟩ dt keys)).2
        (World.step_safe cfg
          (World.step_ufo_fire cfg g (World.step_move cfg ⟨sh, bs, [], [], [], sc, lv, wv, wc, sf, ut⟩ dt keys)).1 dt) dt)
        = (⟨{ Ship.update cfg (Ship.control cfg sh keys dt) dt with invuln := 1/2 },
            (bs.map (fun b => Bullet.update cfg b dt)).filter (fun b => decide (0 < b.ttl)),
            [], [], [], sc, lv, wv, wc, sf - dt, ut - dt⟩, g) := by
      unfold World.step_move World.step_ufo_fire World.step_safe World.step_ufo_spawn
      simp [World.ufoFireLoop, hsf, not_le.mpr hut]
    rw [hpre, collisions_no_hazards]
    exact step_wave_facts cfg g
      ⟨{ Ship.update cfg (Ship.control cfg sh keys dt) dt with invuln := 1/2 },
       (bs.map (fun b => Bullet.update cfg b dt)).filter (fun b => decide (0 < b.ttl)),
       [], [], [], sc, lv, wv, wc, sf - dt, ut - dt⟩ dt rfl
  · have hpre : (World.step_ufo_spawn cfg
        (World.step_ufo_fire cfg g (World.step_move cfg ⟨sh, bs, [], [], [], sc, lv, wv, wc, sf, ut⟩ dt keys)).2
        (World.step_safe cfg
          (World.step_ufo_fire cfg g (World.step_move cfg ⟨sh, bs, [], [], [], sc, lv, wv, wc, sf, ut⟩ dt keys)).1 dt) dt)
        = (⟨{ Ship.update cfg (Ship.control cfg sh keys dt) dt with
              invuln := max ((Ship.update cfg (Ship.control cfg sh keys dt) dt).invuln - dt) 0 },
            (bs.map (fun b => Bullet.update cfg b dt)).filter (fun b => decide (0 < b.ttl)),
            [], [], [], sc, lv, wv, wc, sf, ut - dt⟩, g) := by
      unfold World.step_move World.step_ufo_fire World.step_safe World.step_ufo_spawn
      simp [World.ufoFireLoop, hsf, not_le.mpr hut]
    rw [hpre, collisions_no_hazards]
    exact step_wave_facts cfg g
      ⟨{ Ship.update cfg (Ship.control cfg sh keys dt) dt with
           invuln := max ((Ship.update cfg (Ship.control cfg sh keys dt) dt).invuln - dt) 0 },
       (bs.map (fun b => Bullet.update cfg b dt)).filter (fun b => decide (0 < b.ttl)),
       [], [], [], sc, lv, wv, wc, sf, ut - dt⟩ dt rfl


/-- Witness for C7 at an empty arena with the wave delay already elapsed. -/
theorem wave_progression_witness :
    (0:ℚ) < 10 - 1/10
    ∧ (0:ℚ) ≤ 0
    ∧ ((World.update cfgA rng0 ⟨mkShip ⟨400, 300⟩ 0, [], [], [], [], 0, 2, 1, 0, 0, 10⟩ (1/10) keys0).1.wave = 1 + 1
       ∧ (World.update cfgA rng0 ⟨mkShip ⟨400, 300⟩ 0, [], [], [], [], 0, 2, 1, 0, 0, 10⟩ (1/10) keys0).1.asteroids.length = 3 + (1 + 1)
       ∧ (World.update cfgA rng0 ⟨mkShip ⟨400, 300⟩ 0, [], [], [], [], 0, 2, 1, 0, 0, 10⟩ (1/10) keys0).1.wave_cool = cfgA.WAVE_DELAY) :=
  ⟨by norm_num, le_refl 0,
   (wave_progression cfgA rng0 (1/10) keys0 (mkShip ⟨400, 300⟩ 0) [] 0 2 1 0 0 10
      (by norm_num)).1 (le_refl 0)⟩

/-- The child-spawning loop of split_asteroid only appends asteroids at
the parent position whose sizes are exactly the requested list; every
other field of the world is untouched. -/
theorem spawnChildren_facts (cfg : Config) (ls : List AstSize) :
    ∀ (g : Rng) (w : World) (pos : Vec),
    (World.spawnChildren cfg g w pos ls).1.score = w.score
    ∧ (World.spawnChildren cfg g w pos ls).1.bullets = w.bullets
    ∧ (World.spawnChildren cfg g w pos ls).1.enemy_bullets = w.enemy_bullets
    ∧ (World.spawnChildren cfg g w pos ls).1.ufos = w.ufos
    ∧ (World.spawnChildren cfg g w pos ls).1.ship = w.ship
    ∧ (World.spawnChildren cfg g w pos ls).1.lives = w.lives
    ∧ (World.spawnChildren cfg g w pos ls).1.wave = w.wave
    ∧ (World.spawnChildren cfg g w pos ls).1.wave_cool = w.wave_cool
    ∧ (World.spawnChildren cfg g w pos ls).1.safe = w.safe
    ∧ (World.spawnChildren cfg g w pos ls).1.ufo_timer = w.ufo_timer
    ∧ (World.spawnChildren cfg g w pos ls).1.asteroids.map Asteroid.size
        = w.asteroids.map Asteroid.size ++ ls
    ∧ ∀ c ∈ (World.spawnChildren cfg g w pos ls).1.asteroids,
        c ∈ w.asteroids ∨ c.pos = pos := by
  induction ls with
  | nil =>
      intro g w pos
      refine ⟨rfl, rfl, rfl, rfl, rfl, rfl, rfl, rfl, rfl, rfl,
        by simp [World.spawnChildren], fun c hc => Or.inl hc⟩
  | cons sz rest ih =>
      intro g w pos
      simp only [World.spawnChildren]
      obtain ⟨h1, h2, h3, h4, h5, h6, h7, h8, h9, h10, h11, h12⟩ := ih _ _ pos
      refine ⟨h1, h2, h3, h4, h5, h6, h7, h8, h9, h10, ?_, ?_⟩
      · rw [h11]
        simp [World.spawn_asteroid]
      · intro c hc
        rcases h12 c hc with hmem | hpos
        · simp only [World.spawn_asteroid, List.mem_append] at hmem
          rcases hmem with hmem | hmem
          · exact Or.inl hmem
          · simp at hmem
            right
            rw [hmem]
        · exact Or.inr hpos

/-- Claim C9: the player-bullet versus asteroid test hits exactly when the
center distance is strictly below the canonical asteroid radius alone (the
bullet radius is ignored: changing it never changes the outcome); a hit
kills the bullet, splits the asteroid (children of the split sizes at the
parent position) and awards its size score, while at squared distance
greater than or equal to the squared radius the whole collision pass
leaves the world untouched. -/
theorem bullet_asteroid_collision_spec (cfg : Config) (g : Rng) (sh : Ship)
    (a : Asteroid) (b : Bullet) (sc : ℕ) (lv : ℤ) (wv : ℕ) (wc sf ut : ℚ)
    (hinv : 0 < sh.invuln) :
    (astBulletHit a b = true ↔ distSq a.pos b.pos < a.r ^ 2)
    ∧ (∀ r' : ℚ, astBulletHit a { b with r := r' } = astBulletHit a b)
    ∧ (distSq a.pos b.pos < a.r ^ 2 →
        ((World.handle_collisions cfg g ⟨sh, [b], [], [a], [], sc, lv, wv, wc, sf, ut⟩).1.bullets = []
         ∧ (World.handle_collisions cfg g ⟨sh, [b], [], [a], [], sc, lv, wv, wc, sf, ut⟩).1.score
             = sc + cfg.astScore a.size
         ∧ (World.handle_collisions cfg g ⟨sh, [b], [], [a], [], sc, lv, wv, wc, sf, ut⟩).1.asteroids.map Asteroid.size
             = a.size.splitSizes
         ∧ ∀ c ∈ (World.handle_collisions cfg g ⟨sh, [b], [], [a], [], sc, lv, wv, wc, sf, ut⟩).1.asteroids,
             c.pos = a.pos))
    ∧ (a.r ^ 2 ≤ distSq a.pos b.pos →
        World.handle_collisions cfg g ⟨sh, [b], [], [a], [], sc, lv, wv, wc, sf, ut⟩
          = (⟨sh, [b], [], [a], [], sc, lv, wv, wc, sf, ut⟩, g, [])) := by
  refine ⟨by simp [astBulletHit], fun r' => by simp [astBulletHit], ?_, ?_⟩
  · intro hlt
    have hhit : astBulletHit a b = true := by simp [astBulletHit, hlt]
    have h1 : World.phase_bullets_asteroids cfg g ⟨sh, [b], [], [a], [], sc, lv, wv, wc, sf, ut⟩
        = World.spawnChildren cfg g ⟨sh, [], [], [], [], sc + cfg.astScore a.size, lv, wv, wc, sf, ut⟩
            a.pos a.size.splitSizes := by
      simp [World.phase_bullets_asteroids, collectHits, hhit, World.splitList,
        World.split_asteroid]
    obtain ⟨hs1, hs2, hs3, hs4, hs5, hs6, hs7, hs8, hs9, hs10, hs11, hs12⟩ :=
      spawnChildren_facts cfg a.size.splitSizes g
        ⟨sh, [], [], [], [], sc + cfg.astScore a.size, lv, wv, wc, sf, ut⟩ a.pos
    have hs4x : (World.spawnChildren cfg g ⟨sh, [], [], [], [], sc + cfg.astScore a.size, lv, wv, wc, sf, ut⟩ a.pos a.size.splitSizes).1.ufos = [] := hs4
    have hs5x : (World.spawnChildren cfg g ⟨sh, [], [], [], [], sc + cfg.astScore a.size, lv, wv, wc, sf, ut⟩ a.pos a.size.splitSizes).1.ship = sh := hs5
    have hguard : ¬((World.spawnChildren cfg g ⟨sh, [], [], [], [], sc + cfg.astScore a.size, lv, wv, wc, sf, ut⟩ a.pos a.size.splitSizes).1.ship.invuln ≤ 0
        ∧ (World.spawnChildren cfg g ⟨sh, [], [], [], [], sc + cfg.astScore a.size, lv, wv, wc, sf, ut⟩ a.pos a.size.splitSizes).1.safe ≤ 0) := by
      rw [hs5x]
      rintro ⟨hle, -⟩
      exact absurd hle (not_le.mpr hinv)
    have h2 : World.phase_ship_death cfg
        (World.spawnChildren cfg g ⟨sh, [], [], [], [], sc + cfg.astScore a.size, lv, wv, wc, sf, ut⟩ a.pos a.size.splitSizes).2
        (World.spawnChildren cfg g ⟨sh, [], [], [], [], sc + cfg.astScore a.size, lv, wv, wc, sf, ut⟩ a.pos a.size.splitSizes).1
        = World.spawnChildren cfg g ⟨sh, [], [], [], [], sc + cfg.astScore a.size, lv, wv, wc, sf, ut⟩ a.pos a.size.splitSizes := by
      unfold World.phase_ship_death
      rw [if_neg hguard]
    have h3 : World.phase_bullets_ufos cfg
        (World.spawnChildren cfg g ⟨sh, [], [], [], [], sc + cfg.astScore a.size, lv, wv, wc, sf, ut⟩ a.pos a.size.splitSizes).1
        = ((World.spawnChildren cfg g ⟨sh, [], [], [], [], sc + cfg.astScore a.size, lv, wv, wc, sf, ut⟩ a.pos a.size.splitSizes).1, []) := by
      unfold World.phase_bullets_ufos
      rw [hs4x]
      simp [World.p3outer]
    have h4 : World.phase_ufo_asteroids cfg
        (World.spawnChildren cfg g ⟨sh, [], [], [], [], sc + cfg.astScore a.size, lv, wv, wc, sf, ut⟩ a.pos a.size.splitSizes).2
        (World.spawnChildren cfg g ⟨sh, [], [], [], [], sc + cfg.astScore a.size, lv, wv, wc, sf, ut⟩ a.pos a.size.splitSizes).1
        = ((World.spawnChildren cfg g ⟨sh, [], [], [], [], sc + cfg.astScore a.size, lv, wv, wc, sf, ut⟩ a.pos a.size.splitSizes).1,
           (World.spawnChildren cfg g ⟨sh, [], [], [], [], sc + cfg.astScore a.size, lv, wv, wc, sf, ut⟩ a.pos a.size.splitSizes).2, []) := by
      unfold World.phase_ufo_asteroids
      rw [hs4x]
      simp [World.crashScan, World.crashResolve]
    simp only [World.handle_collisions]
    rw [h1, h2, h3]
    rw [h4]
    refine ⟨hs2, hs1, hs11, ?_⟩
    intro c hc
    rcases hs12 c hc with hmem | hpos
    · simp at hmem
    · exact hpos
  · intro hge
    have hmiss : astBulletHit a b = false := by
      simp [astBulletHit, not_lt.mpr hge]
    have hguard : ¬((sh.invuln ≤ 0) ∧ (sf ≤ 0)) := by
      rintro ⟨hle, -⟩
      exact absurd hle (not_le.mpr hinv)
    unfold World.handle_collisions World.phase_bullets_asteroids
      World.phase_ship_death World.phase_bullets_ufos World.phase_ufo_asteroids
    simp [collectHits, hmiss, World.splitList, World.p3outer, World.crashScan,
      World.crashResolve, hguard]

/-- Claim C10: a UFO crashing into an asteroid splits it through the same
split_asteroid routine, so the size score is awarded and the score grows
strictly with no player bullet in flight at all. -/
theorem ufo_crash_awards_score (cfg : Config) (g : Rng) (sh : Ship) (u : UFO)
    (a : Asteroid) (sc : ℕ) (lv : ℤ) (wv : ℕ) (wc sf ut : ℚ)
    (hinv : 0 < sh.invuln)
    (hhit : distSq u.pos a.pos < (u.r + a.r) ^ 2)
    (hsc : 0 < cfg.astScore a.size) :
    (World.handle_collisions cfg g ⟨sh, [], [], [a], [u], sc, lv, wv, wc, sf, ut⟩).1.score
        = sc + cfg.astScore a.size
    ∧ sc < (World.handle_collisions cfg g ⟨sh, [], [], [a], [u], sc, lv, wv, wc, sf, ut⟩).1.score
    ∧ (World.handle_collisions cfg g ⟨sh, [], [], [a], [u], sc, lv, wv, wc, sf, ut⟩).1.ufos = []
    ∧ (World.handle_collisions cfg g ⟨sh, [], [], [a], [u], sc, lv, wv, wc, sf, ut⟩).1.bullets = [] := by
  have huhit : ufoAstHit u a = true := by simp [ufoAstHit, hhit]
  have h1 : World.phase_bullets_asteroids cfg g ⟨sh, [], [], [a], [u], sc, lv, wv, wc, sf, ut⟩
      = (⟨sh, [], [], [a], [u], sc, lv, wv, wc, sf, ut⟩, g) := by
    simp [World.phase_bullets_asteroids, collectHits, World.splitList]
  have hguard : ¬(((⟨sh, [], [], [a], [u], sc, lv, wv, wc, sf, ut⟩ : World)).ship.invuln ≤ 0
      ∧ ((⟨sh, [], [], [a], [u], sc, lv, wv, wc, sf, ut⟩ : World)).safe ≤ 0) := by
    rintro ⟨hle, -⟩
    exact absurd hle (not_le.mpr hinv)
  have h2 : World.phase_ship_death cfg g ⟨sh, [], [], [a], [u], sc, lv, wv, wc, sf, ut⟩
      = (⟨sh, [], [], [a], [u], sc, lv, wv, wc, sf, ut⟩, g) := by
    unfold World.phase_ship_death
    rw [if_neg hguard]
  have h3 : World.phase_bullets_ufos cfg ⟨sh, [], [], [a], [u], sc, lv, wv, wc, sf, ut⟩
      = (⟨sh, [], [], [a], [u], sc, lv, wv, wc, sf, ut⟩, []) := by
    simp [World.phase_bullets_ufos, World.p3outer, World.p3inner]
  have h4 : World.phase_ufo_asteroids cfg g ⟨sh, [], [], [a], [u], sc, lv, wv, wc, sf, ut⟩
      = ((World.spawnChildren cfg g ⟨sh, [], [], [], [], sc + cfg.astScore a.size, lv, wv, wc, sf, ut⟩ a.pos a.size.splitSizes).1,
         (World.spawnChildren cfg g ⟨sh, [], [], [], [], sc + cfg.astScore a.size, lv, wv, wc, sf, ut⟩ a.pos a.size.splitSizes).2,
         u.killStops ++ u.killStops) := by
    simp [World.phase_ufo_asteroids, World.crashScan, huhit, World.crashResolve,
      World.splitList, World.split_asteroid]
  obtain ⟨hs1, hs2, hs3, hs4, hs5, hs6, hs7, hs8, hs9, hs10, hs11, hs12⟩ :=
    spawnChildren_facts cfg a.size.splitSizes g
      ⟨sh, [], [], [], [], sc + cfg.astScore a.size, lv, wv, wc, sf, ut⟩ a.pos
  simp only [World.handle_collisions]
  rw [h1, h2, h3, h4]
  exact ⟨hs1, by rw [hs1]; exact Nat.lt_add_of_pos_right hsc, hs4, hs2⟩


/-- Witness for C9 at a bullet 10 units from the center of a Large
asteroid of radius 40. -/
theorem bullet_asteroid_collision_spec_witness :
    (0:ℚ) < (mkShip ⟨600, 500⟩ 5).invuln
    ∧ distSq (mkAstL ⟨100, 100⟩).pos bHit.pos < (mkAstL ⟨100, 100⟩).r ^ 2
    ∧ ((World.handle_collisions cfgA rng0 ⟨mkShip ⟨600, 500⟩ 5, [bHit], [], [mkAstL ⟨100, 100⟩], [], 0, 2, 1, 2, 0, 10⟩).1.bullets = []
       ∧ (World.handle_collisions cfgA rng0 ⟨mkShip ⟨600, 500⟩ 5, [bHit], [], [mkAstL ⟨100, 100⟩], [], 0, 2, 1, 2, 0, 10⟩).1.score
           = 0 + cfgA.astScore (mkAstL ⟨100, 100⟩).size
       ∧ (World.handle_collisions cfgA rng0 ⟨mkShip ⟨600, 500⟩ 5, [bHit], [], [mkAstL ⟨100, 100⟩], [], 0, 2, 1, 2, 0, 10⟩).1.asteroids.map Asteroid.size
           = (mkAstL ⟨100, 100⟩).size.splitSizes
       ∧ ∀ c ∈ (World.handle_collisions cfgA rng0 ⟨mkShip ⟨600, 500⟩ 5, [bHit], [], [mkAstL ⟨100, 100⟩], [], 0, 2, 1, 2, 0, 10⟩).1.asteroids,
           c.pos = (mkAstL ⟨100, 100⟩).pos) :=
  ⟨by with_unfolding_all decide, by with_unfolding_all decide,
   (bullet_asteroid_collision_spec cfgA rng0 (mkShip ⟨600, 500⟩ 5)
      (mkAstL ⟨100, 100⟩) bHit 0 2 1 2 0 10
      (by with_unfolding_all decide)).2.2.1 (by with_unfolding_all decide)⟩

/-- Witness for C10 at a UFO overlapping a Large asteroid with no bullets
anywhere. -/
theorem ufo_crash_awards_score_witness :
    (0:ℚ) < (mkShip ⟨600, 500⟩ 5).invuln
    ∧ distSq (mkUfo ⟨100, 96⟩ (some 3)).pos (mkAstL ⟨100, 100⟩).pos
        < ((mkUfo ⟨100, 96⟩ (some 3)).r + (mkAstL ⟨100, 100⟩).r) ^ 2
    ∧ (0 < cfgA.astScore (mkAstL ⟨100, 100⟩).size)
    ∧ ((World.handle_collisions cfgA rng0 ⟨mkShip ⟨600, 500⟩ 5, [], [], [mkAstL ⟨100, 100⟩], [mkUfo ⟨100, 96⟩ (some 3)], 0, 2, 1, 2, 0, 10⟩).1.score
         = 0 + cfgA.astScore (mkAstL ⟨100, 100⟩).size
       ∧ 0 < (World.handle_collisions cfgA rng0 ⟨mkShip ⟨600, 500⟩ 5, [], [], [mkAstL ⟨100, 100⟩], [mkUfo ⟨100, 96⟩ (some 3)], 0, 2, 1, 2, 0, 10⟩).1.score
       ∧ (World.handle_collisions cfgA rng0 ⟨mkShip ⟨600, 500⟩ 5, [], [], [mkAstL ⟨100, 100⟩], [mkUfo ⟨100, 96⟩ (some 3)], 0, 2, 1, 2, 0, 10⟩).1.ufos = []
       ∧ (World.handle_collisions cfgA rng0 ⟨mkShip ⟨600, 500⟩ 5, [], [], [mkAstL ⟨100, 100⟩], [mkUfo ⟨100, 96⟩ (some 3)], 0, 2, 1, 2, 0, 10⟩).1.bullets = []) :=
  ⟨by with_unfolding_all decide, by with_unfolding_all decide,
   by with_unfolding_all decide,
   ufo_crash_awards_score cfgA rng0 (mkShip ⟨600, 500⟩ 5)
     (mkUfo ⟨100, 96⟩ (some 3)) (mkAstL ⟨100, 100⟩) 0 2 1 2 0 10
     (by with_unfolding_all decide) (by with_unfolding_all decide)
     (by with_unfolding_all decide)⟩

/-- split_asteroid adds exactly the size score of the split asteroid. -/
theorem split_asteroid_score (cfg : Config) (g : Rng) (w : World) (a : Asteroid) :
    (World.split_asteroid cfg g w a).1.score = w.score + cfg.astScore a.size := by
  unfold World.split_asteroid
  exact (spawnChildren_facts cfg a.size.splitSizes g _ a.pos).1

/-- Splitting any list of asteroids never lowers the score. -/
theorem splitList_score_mono (cfg : Config) : ∀ (hits : List Asteroid) (g : Rng) (w : World),
    w.score ≤ (World.splitList cfg g w hits).1.score := by
  intro hits
  induction hits with
  | nil => intro g w; exact le_refl _
  | cons a rest ih =>
      intro g w
      simp only [World.splitList]
      calc w.score ≤ (World.split_asteroid cfg g w a).1.score := by
                rw [split_asteroid_score]; exact Nat.le_add_right _ _
        _ ≤ _ := ih _ _

/-- Collision pass 1 never lowers the score. -/
theorem phase1_score_mono (cfg : Config) (g : Rng) (w : World) :
    w.score ≤ (World.phase_bullets_asteroids cfg g w).1.score := by
  simp only [World.phase_bullets_asteroids]
  exact splitList_score_mono cfg (collectHits w.asteroids w.bullets).1 g
    { w with bullets := (collectHits w.asteroids w.bullets).2 }

/-- ship_die either leaves score and UFO collection alone (no-op or
respawn) or resets the world, zeroing the score and emptying the UFOs. -/
theorem ship_die_score_cases (cfg : Config) (g : Rng) (w : World) :
    ((World.ship_die cfg g w).1.score = w.score
     ∧ (World.ship_die cfg g w).1.ufos = w.ufos)
    ∨ ((World.ship_die cfg g w).1.score = 0
       ∧ (World.ship_die cfg g w).1.ufos = []) := by
  simp only [World.ship_die]
  split_ifs with h1 h2
  · exact Or.inl ⟨rfl, rfl⟩
  · obtain ⟨i1, i2, i3, i4, i5, i6, i7, i8⟩ := init_facts cfg g
    exact Or.inr ⟨i1, i6⟩
  · exact Or.inl ⟨rfl, rfl⟩

/-- The asteroid death block preserves score and UFOs unless it resets. -/
theorem phase2a_cases (cfg : Config) (g : Rng) (w : World) :
    ((World.phase2a cfg g w).1.score = w.score
     ∧ (World.phase2a cfg g w).1.ufos = w.ufos)
    ∨ ((World.phase2a cfg g w).1.score = 0
       ∧ (World.phase2a cfg g w).1.ufos = []) := by
  unfold World.phase2a
  split_ifs with h
  · exact ship_die_score_cases cfg g w
  · exact Or.inl ⟨rfl, rfl⟩

/-- The UFO death block preserves score and UFOs unless it resets. -/
theorem phase2b_cases (cfg : Config) (r : World × Rng) :
    ((World.phase2b cfg r).1.score = r.1.score
     ∧ (World.phase2b cfg r).1.ufos = r.1.ufos)
    ∨ ((World.phase2b cfg r).1.score = 0
       ∧ (World.phase2b cfg r).1.ufos = []) := by
  unfold World.phase2b
  split_ifs with h
  · exact ship_die_score_cases cfg r.2 r.1
  · exact Or.inl ⟨rfl, rfl⟩

/-- The enemy-bullet death block preserves score and UFOs unless it
resets. -/
theorem phase2c_cases (cfg : Config) (r : World × Rng) :
    ((World.phase2c cfg r).1.score = r.1.score
     ∧ (World.phase2c cfg r).1.ufos = r.1.ufos)
    ∨ ((World.phase2c cfg r).1.score = 0
       ∧ (World.phase2c cfg r).1.ufos = []) := by
  unfold World.phase2c
  split_ifs with h1 h2
  · rcases ship_die_score_cases cfg r.2
      { r.1 with enemy_bullets :=
          r.1.enemy_bullets.filter (fun b => !collideCircleSB r.1.ship b) }
      with ⟨e1, e2⟩ | ⟨e1, e2⟩
    · exact Or.inl ⟨e1, e2⟩
    · exact Or.inr ⟨e1, e2⟩
  · exact Or.inl ⟨rfl, rfl⟩
  · exact Or.inl ⟨rfl, rfl⟩

/-- Collision pass 2 as a whole preserves score and UFOs unless some
death in it triggered the full reset. -/
theorem phase2_cases (cfg : Config) (g : Rng) (w : World) :
    ((World.phase_ship_death cfg g w).1.score = w.score
     ∧ (World.phase_ship_death cfg g w).1.ufos = w.ufos)
    ∨ ((World.phase_ship_death cfg g w).1.score = 0
       ∧ (World.phase_ship_death cfg g w).1.ufos = []) := by
  unfold World.phase_ship_death
  split_ifs with hg
  · rcases phase2c_cases cfg (World.phase2b cfg (World.phase2a cfg g w))
      with ⟨c1, c2⟩ | ⟨c1, c2⟩
    · rcases phase2b_cases cfg (World.phase2a cfg g w) with ⟨b1, b2⟩ | ⟨b1, b2⟩
      · rcases phase2a_cases cfg g w with ⟨a1, a2⟩ | ⟨a1, a2⟩
        · exact Or.inl ⟨by rw [c1, b1, a1], by rw [c2, b2, a2]⟩
        · exact Or.inr ⟨by rw [c1, b1, a1], by rw [c2, b2, a2]⟩
      · exact Or.inr ⟨by rw [c1, b1], by rw [c2, b2]⟩
    · exact Or.inr ⟨c1, c2⟩
  · exact Or.inl ⟨rfl, rfl⟩

/-- The inner loop of collision pass 3 never lowers the score. -/
theorem p3inner_score_mono (cfg : Config) (u : UFO) :
    ∀ (bs : List Bullet) (w : World) (st : List ℕ),
    w.score ≤ (World.p3inner cfg u w st bs).1.score := by
  intro bs
  induction bs with
  | nil => intro w st; exact le_refl _
  | cons b rest ih =>
      intro w st
      simp only [World.p3inner]
      by_cases h : distSq u.pos b.pos < (u.r + b.r) ^ 2
      · rw [if_pos h]
        exact le_trans (Nat.le_add_right w.score _)
          (ih { w with
                  score := w.score +
                    (if u.small then cfg.UFO_SMALL_SCORE else cfg.UFO_BIG_SCORE),
                  ufos := w.ufos.erase u,
                  bullets := w.bullets.erase b } (st ++ u.killStops))
      · rw [if_neg h]
        exact ih w st

/-- The outer loop of collision pass 3 never lowers the score. -/
theorem p3outer_score_mono (cfg : Config) :
    ∀ (us : List UFO) (w : World) (st : List ℕ),
    w.score ≤ (World.p3outer cfg w st us).1.score := by
  intro us
  induction us with
  | nil => intro w st; exact le_refl _
  | cons u rest ih =>
      intro w st
      simp only [World.p3outer]
      calc w.score ≤ (World.p3inner cfg u w st w.bullets).1.score :=
            p3inner_score_mono cfg u _ _ _
        _ ≤ _ := ih _ _

/-- Collision pass 3 never lowers the score. -/
theorem phase3_score_mono (cfg : Config) (w : World) :
    w.score ≤ (World.phase_bullets_ufos cfg w).1.score := by
  unfold World.phase_bullets_ufos
  exact p3outer_score_mono cfg _ _ _

/-- Collision pass 3 is the identity when no UFO is alive. -/
theorem phase3_ufos_nil (cfg : Config) (w : World) (h : w.ufos = []) :
    World.phase_bullets_ufos cfg w = (w, []) := by
  unfold World.phase_bullets_ufos
  rw [h]
  simp [World.p3outer]

/-- The detection half of collision pass 4 never touches the score. -/
theorem crashScan_score : ∀ (us : List UFO) (w : World) (st : List ℕ)
    (acc : List (UFO × List Asteroid)),
    (World.crashScan w st acc us).1.score = w.score := by
  intro us
  induction us with
  | nil => intro w st acc; rfl
  | cons u rest ih =>
      intro w st acc
      simp only [World.crashScan]
      split_ifs with h
      · exact ih _ _ _
      · exact ih _ _ _

/-- The resolution half of collision pass 4 never lowers the score. -/
theorem crashResolve_score_mono (cfg : Config) :
    ∀ (cr : List (UFO × List Asteroid)) (g : Rng) (w : World) (st : List ℕ),
    w.score ≤ (World.crashResolve cfg g w st cr).1.score := by
  intro cr
  induction cr with
  | nil => intro g w st; exact le_refl _
  | cons p rest ih =>
      intro g w st
      simp only [World.crashResolve]
      calc w.score ≤ (World.splitList cfg g w p.2).1.score :=
            splitList_score_mono cfg _ _ _
        _ ≤ _ := ih _ _ _

/-- Collision pass 4 never lowers the score. -/
theorem phase4_score_mono (cfg : Config) (g : Rng) (w : World) :
    w.score ≤ (World.phase_ufo_asteroids cfg g w).1.score := by
  show w.score ≤ (World.crashResolve cfg g (World.crashScan w [] [] w.ufos).1
    (World.crashScan w [] [] w.ufos).2.1 (World.crashScan w [] [] w.ufos).2.2).1.score
  calc w.score = (World.crashScan w [] [] w.ufos).1.score :=
        (crashScan_score w.ufos w [] []).symm
    _ ≤ _ := crashResolve_score_mono cfg _ _ _ _

/-- Collision pass 4 is the identity when no UFO is alive. -/
theorem phase4_ufos_nil (cfg : Config) (g : Rng) (w : World) (h : w.ufos = []) :
    World.phase_ufo_asteroids cfg g w = (w, g, []) := by
  unfold World.phase_ufo_asteroids
  rw [h]
  simp [World.crashScan, World.crashResolve]

/-- handle_collisions written out as the composition of its passes. -/
theorem handle_collisions_eq (cfg : Config) (g : Rng) (w : World) :
    World.handle_collisions cfg g w =
      ((World.phase_ufo_asteroids cfg
          (World.phase_ship_death cfg (World.phase_bullets_asteroids cfg g w).2
            (World.phase_bullets_asteroids cfg g w).1).2
          (World.phase_bullets_ufos cfg
            (World.phase_ship_death cfg (World.phase_bullets_asteroids cfg g w).2
              (World.phase_bullets_asteroids cfg g w).1).1).1).1,
       (World.phase_ufo_asteroids cfg
          (World.phase_ship_death cfg (World.phase_bullets_asteroids cfg g w).2
            (World.phase_bullets_asteroids cfg g w).1).2
          (World.phase_bullets_ufos cfg
            (World.phase_ship_death cfg (World.phase_bullets_asteroids cfg g w).2
              (World.phase_bullets_asteroids cfg g w).1).1).1).2.1,
       (World.phase_bullets_ufos cfg
          (World.phase_ship_death cfg (World.phase_bullets_asteroids cfg g w).2
            (World.phase_bullets_asteroids cfg g w).1).1).2 ++
       (World.phase_ufo_asteroids cfg
          (World.phase_ship_death cfg (World.phase_bullets_asteroids cfg g w).2
            (World.phase_bullets_asteroids cfg g w).1).2
          (World.phase_bullets_ufos cfg
            (World.phase_ship_death cfg (World.phase_bullets_asteroids cfg g w).2
              (World.phase_bullets_asteroids cfg g w).1).1).1).2.2) := rfl

/-- The world component of handle_collisions. -/
theorem handle_collisions_fst (cfg : Config) (g : Rng) (w : World) :
    (World.handle_collisions cfg g w).1 =
      (World.phase_ufo_asteroids cfg
        (World.phase_ship_death cfg (World.phase_bullets_asteroids cfg g w).2
          (World.phase_bullets_asteroids cfg g w).1).2
        (World.phase_bullets_ufos cfg
          (World.phase_ship_death cfg (World.phase_bullets_asteroids cfg g w).2
            (World.phase_bullets_asteroids cfg g w).1).1).1).1 := rfl

/-- Across a whole collision pass the score either does not decrease or
has been reset to zero by a fatal ship death. -/
theorem handle_collisions_score_cases (cfg : Config) (g : Rng) (w : World) :
    w.score ≤ (World.handle_collisions cfg g w).1.score
    ∨ (World.handle_collisions cfg g w).1.score = 0 := by
  rw [handle_collisions_fst]
  have m1 := phase1_score_mono cfg g w
  rcases phase2_cases cfg (World.phase_bullets_asteroids cfg g w).2
      (World.phase_bullets_asteroids cfg g w).1 with ⟨p1, p2⟩ | ⟨p1, p2⟩
  · have m3 := phase3_score_mono cfg
      (World.phase_ship_death cfg (World.phase_bullets_asteroids cfg g w).2
        (World.phase_bullets_asteroids cfg g w).1).1
    have m4 := phase4_score_mono cfg
      (World.phase_ship_death cfg (World.phase_bullets_asteroids cfg g w).2
        (World.phase_bullets_asteroids cfg g w).1).2
      (World.phase_bullets_ufos cfg
        (World.phase_ship_death cfg (World.phase_bullets_asteroids cfg g w).2
          (World.phase_bullets_asteroids cfg g w).1).1).1
    left
    omega
  · have e3 := phase3_ufos_nil cfg
      (World.phase_ship_death cfg (World.phase_bullets_asteroids cfg g w).2
        (World.phase_bullets_asteroids cfg g w).1).1 p2
    rw [e3]
    have e4 := phase4_ufos_nil cfg
      (World.phase_ship_death cfg (World.phase_bullets_asteroids cfg g w).2
        (World.phase_bullets_asteroids cfg g w).1).2
      (World.phase_ship_death cfg (World.phase_bullets_asteroids cfg g w).2
        (World.phase_bullets_asteroids cfg g w).1).1 p2
    rw [e4]
    exact Or.inr p1

/-- The movement step never touches the score. -/
theorem step_move_score (cfg : Config) (w : World) (dt : ℚ) (keys : Keys) :
    (World.step_move cfg w dt keys).score = w.score := rfl

/-- The UFO volley never touches the score. -/
theorem step_ufo_fire_score (cfg : Config) (g : Rng) (w : World) :
    (World.step_ufo_fire cfg g w).1.score = w.score := rfl

/-- The safe-spawn timer step never touches the score. -/
theorem step_safe_score (cfg : Config) (w : World) (dt : ℚ) :
    (World.step_safe cfg w dt).score = w.score := by
  unfold World.step_safe
  split_ifs <;> rfl

/-- The UFO spawn step never touches the score. -/
theorem step_ufo_spawn_score (cfg : Config) (g : Rng) (w : World) (dt : ℚ) :
    (World.step_ufo_spawn cfg g w dt).1.score = w.score := by
  simp only [World.step_ufo_spawn]
  split_ifs with h
  · simp [World.spawn_ufo]
  · rfl

/-- The wave-progression step never touches the score. -/
theorem step_wave_score (cfg : Config) (g : Rng) (w : World) (dt : ℚ) :
    (World.step_wave cfg g w dt).1.score = w.score := by
  simp only [World.step_wave, World.start_wave]
  split_ifs with h1 h2
  · exact (waveSpawnLoop_fields cfg _ g { w with wave := w.wave + 1 }).1
  · rfl
  · rfl

/-- Claim C3, amended: across every single World.update, from any state,
the score either does not decrease or has been reset to zero by a ship
death that exhausted the lives (the full world reset); those are the only
two behaviours, so outside the reset the score is monotone. -/
theorem score_monotone_or_reset_to_zero (cfg : Config) (g : Rng) (w : World)
    (dt : ℚ) (keys : Keys) :
    w.score ≤ (World.update cfg g w dt keys).1.score
    ∨ (World.update cfg g w dt keys).1.score = 0 := by
  rw [update_fst]
  have e1 : (World.step_move cfg w dt keys).score = w.score :=
    step_move_score cfg w dt keys
  have e2 : (World.step_ufo_fire cfg g (World.step_move cfg w dt keys)).1.score
      = (World.step_move cfg w dt keys).score :=
    step_ufo_fire_score cfg g _
  have e3 : (World.step_safe cfg
      (World.step_ufo_fire cfg g (World.step_move cfg w dt keys)).1 dt).score
      = (World.step_ufo_fire cfg g (World.step_move cfg w dt keys)).1.score :=
    step_safe_score cfg _ dt
  have e4 : (World.step_ufo_spawn cfg
      (World.step_ufo_fire cfg g (World.step_move cfg w dt keys)).2
      (World.step_safe cfg
        (World.step_ufo_fire cfg g (World.step_move cfg w dt keys)).1 dt) dt).1.score
      = (World.step_safe cfg
          (World.step_ufo_fire cfg g (World.step_move cfg w dt keys)).1 dt).score :=
    step_ufo_spawn_score cfg _ _ dt
  have e6 : (World.step_wave cfg
      (World.handle_collisions cfg
        (World.step_ufo_spawn cfg (World.step_ufo_fire cfg g (World.step_move cfg w dt keys)).2
          (World.step_safe cfg (World.step_ufo_fire cfg g (World.step_move cfg w dt keys)).1 dt) dt).2
        (World.step_ufo_spawn cfg (World.step_ufo_fire cfg g (World.step_move cfg w dt keys)).2
          (World.step_safe cfg (World.step_ufo_fire cfg g (World.step_move cfg w dt keys)).1 dt) dt).1).2.1
      (World.handle_collisions cfg
        (World.step_ufo_spawn cfg (World.step_ufo_fire cfg g (World.step_move cfg w dt keys)).2
          (World.step_safe cfg (World.step_ufo_fire cfg g (World.step_move cfg w dt keys)).1 dt) dt).2
        (World.step_ufo_spawn cfg (World.step_ufo_fire cfg g (World.step_move cfg w dt keys)).2
          (World.step_safe cfg (World.step_ufo_fire cfg g (World.step_move cfg w dt keys)).1 dt) dt).1).1
      dt).1.score
      = (World.handle_collisions cfg
          (World.step_ufo_spawn cfg (World.step_ufo_fire cfg g (World.step_move cfg w dt keys)).2
            (World.step_safe cfg (World.step_ufo_fire cfg g (World.step_move cfg w dt keys)).1 dt) dt).2
          (World.step_ufo_spawn cfg (World.step_ufo_fire cfg g (World.step_move cfg w dt keys)).2
            (World.step_safe cfg (World.step_ufo_fire cfg g (World.step_move cfg w dt keys)).1 dt) dt).1).1.score :=
    step_wave_score cfg _ _ dt
  rcases handle_collisions_score_cases cfg
      (World.step_ufo_spawn cfg (World.step_ufo_fire cfg g (World.step_move cfg w dt keys)).2
        (World.step_safe cfg (World.step_ufo_fire cfg g (World.step_move cfg w dt keys)).1 dt) dt).2
      (World.step_ufo_spawn cfg (World.step_ufo_fire cfg g (World.step_move cfg w dt keys)).2
        (World.step_safe cfg (World.step_ufo_fire cfg g (World.step_move cfg w dt keys)).1 dt) dt).1
      with hc | hc
  · left
    omega
  · right
    omega
